import Mathlib

/-!
Verification of the gslide2media "Options History & Identity" and
"Drive-tree traversal / lazy export" core, as a shallow embedding of the
Python sources in `src/gslide2media`.

Conventions used throughout:
* Python values that flow through the modelled code are embedded as `PyVal`
  (None, bool, int, str, pathlib.Path, list of str, tuple of str).  Python's
  `==`, truthiness and `hash` are embedded as `pyValEq`, `pyTruthy` and
  `pyHash`.  `pyHash` is an explicit deterministic function standing for
  CPython's per-process deterministic hash; only the facts actually used by
  the code (hash is a function of the value, `hash(True) = hash(1)`) matter.
* `Options` (options.py) is embedded as a structure with one `PyVal` field
  per dataclass field, in declaration order.  Leading underscores of Python
  field names are dropped in the Lean field names; the string keys used by
  `asdict` / the exclusion list keep the exact Python spelling.
* Mutating methods are embedded as state-passing functions; a raised Python
  exception is an explicit `PyError` value returned next to the
  (already mutated) state, mirroring that Python mutates in place before an
  exception propagates.
* Wall-clock reads (`datetime.now`) take the current time as an explicit
  `Nat` argument.
-/

/-- Embedded Python runtime values appearing in the modelled code:
`None`, `bool`, `int`, `str`, `pathlib.Path` (by its resolved string),
`list[str]` and `tuple[str]`. -/
inductive PyVal where
  | vNone : PyVal
  | vBool (b : Bool) : PyVal
  | vInt (n : Int) : PyVal
  | vStr (s : String) : PyVal
  | vPath (s : String) : PyVal
  | vStrList (l : List String) : PyVal
  | vStrTuple (l : List String) : PyVal
  deriving DecidableEq, Repr

/-- The int Python promotes a bool to for `==`/`hash` purposes. -/
def pyIntOfBool (b : Bool) : Int := if b then 1 else 0

/-- Python `==` on embedded values.  Mirrors CPython: `True == 1`,
`False == 0`, a `str` never equals a `Path`, a `list` never equals a
`tuple`, and distinct types are otherwise unequal. -/
def pyValEq : PyVal → PyVal → Bool
  | .vNone, .vNone => true
  | .vBool b, .vBool c => b == c
  | .vBool b, .vInt n => pyIntOfBool b == n
  | .vInt n, .vBool b => n == pyIntOfBool b
  | .vInt n, .vInt m => n == m
  | .vStr s, .vStr t => s == t
  | .vPath s, .vPath t => s == t
  | .vStrList l, .vStrList m => l == m
  | .vStrTuple l, .vStrTuple m => l == m
  | _, _ => false

/-- Python truthiness of embedded values. -/
def pyTruthy : PyVal → Bool
  | .vNone => false
  | .vBool b => b
  | .vInt n => n != 0
  | .vStr s => s != ""
  | .vPath _ => true
  | .vStrList l => !l.isEmpty
  | .vStrTuple l => !l.isEmpty

/-- Stand-in for CPython's string hash (deterministic within a process). -/
def strHash (s : String) : Nat :=
  s.data.foldl (fun acc c => acc * 31 + c.toNat + 1) 7

/-- Stand-in for CPython's int hash. -/
def intHashZ (n : Int) : Nat := (n.emod (2 ^ 61 - 1)).toNat

/-- Stand-in for CPython's tuple hash: a function of the element hashes. -/
def combineHash (l : List Nat) : Nat :=
  l.foldl (fun acc h => acc * 1000003 + h + 1) 5381

/-- Python `hash` on embedded values.  `hash(True) = hash(1)` and
`hash(False) = hash(0)` as in CPython; a `list` is unhashable in Python,
but the modelled code only hashes lists after converting them to tuples,
so the `vStrList` arm is never reached on the modelled paths. -/
def pyHash : PyVal → Nat
  | .vNone => 0
  | .vBool b => intHashZ (pyIntOfBool b)
  | .vInt n => intHashZ n
  | .vStr s => strHash s
  | .vPath s => 2 + strHash s
  | .vStrList l => combineHash (l.map strHash)
  | .vStrTuple l => combineHash (l.map strHash)

/-- Python `isinstance(x, bool)` on embedded values. -/
def isPyBool : PyVal → Bool
  | .vBool _ => true
  | _ => false

/-- Models `str(Path(".").resolve())` for one fixed process: the resolved
current working directory at interpreter start. -/
def resolvedCwd : String := "/current/working/directory"

/-- Embedding of the `Options` dataclass (options.py).  One `PyVal` field per
Python dataclass field, in declaration order.  Defaults are the dataclass
defaults after `__post_init__` normalisation (timestamps stamped — the value
is irrelevant to equality/hash, `0` is used — and the unset working
directory normalised to `str(Path(".").resolve())`). -/
structure Options where
  presentation_id : PyVal := .vNone
  folder_id : PyVal := .vNone
  custom_presentation : PyVal := .vNone
  file_formats : PyVal := .vNone
  run_all : PyVal := .vBool false
  download_directory : PyVal := .vStr resolvedCwd
  mp4_slide_duration_secs : PyVal := .vNone
  mp4_total_video_duration : PyVal := .vNone
  fps : PyVal := .vNone
  jpeg_quality : PyVal := .vNone
  aspect_ratio : PyVal := .vNone
  dpi : PyVal := .vNone
  screen_width : PyVal := .vNone
  screen_height : PyVal := .vNone
  save_to_file : PyVal := .vBool false
  import_client_secret : PyVal := .vBool false
  label : PyVal := .vNone
  set_label : PyVal := .vNone
  options_set_name : PyVal := .vNone
  options_max_history : PyVal := .vNone
  remove_history_option : PyVal := .vBool false
  clear_history : PyVal := .vBool false
  clear_force : PyVal := .vBool false
  interactive : PyVal := .vBool false
  from_api : PyVal := .vBool false
  tool_auth_google_api_project : PyVal := .vBool false
  tool_import_client_secret : PyVal := .vBool false
  options_source : PyVal := .vNone
  create_time_utc : PyVal := .vInt 0
  modify_time_utc : PyVal := .vInt 0
  last_used_time_utc : PyVal := .vInt 0
  deriving DecidableEq, Repr

/-- Embedding of `dataclasses.asdict(options)`: the (attribute name, value)
pairs in dataclass declaration order, with the original Python spellings of
the attribute names (including leading underscores). -/
def asdictList (o : Options) : List (String × PyVal) :=
  [("presentation_id", o.presentation_id),
   ("folder_id", o.folder_id),
   ("custom_presentation", o.custom_presentation),
   ("file_formats", o.file_formats),
   ("run_all", o.run_all),
   ("download_directory", o.download_directory),
   ("mp4_slide_duration_secs", o.mp4_slide_duration_secs),
   ("mp4_total_video_duration", o.mp4_total_video_duration),
   ("fps", o.fps),
   ("jpeg_quality", o.jpeg_quality),
   ("aspect_ratio", o.aspect_ratio),
   ("dpi", o.dpi),
   ("screen_width", o.screen_width),
   ("screen_height", o.screen_height),
   ("save_to_file", o.save_to_file),
   ("import_client_secret", o.import_client_secret),
   ("label", o.label),
   ("set_label", o.set_label),
   ("options_set_name", o.options_set_name),
   ("options_max_history", o.options_max_history),
   ("remove_history_option", o.remove_history_option),
   ("clear_history", o.clear_history),
   ("clear_force", o.clear_force),
   ("_interactive", o.interactive),
   ("from_api", o.from_api),
   ("_tool_auth_google_api_project", o.tool_auth_google_api_project),
   ("_tool_import_client_secret", o.tool_import_client_secret),
   ("options_source", o.options_source),
   ("_create_time_utc", o.create_time_utc),
   ("_modify_time_utc", o.modify_time_utc),
   ("last_used_time_utc", o.last_used_time_utc)]

/-- The `_comp_excluded_attrs` list set in `Options.__post_init__`
(options.py lines 64-81), verbatim. -/
def comp_excluded_attrs : List String :=
  ["comp_excluded_attrs",
   "import_client_secret",
   "label",
   "set_label",
   "options_max_history",
   "remove_history_option",
   "clear_history",
   "clear_force",
   "_interactive",
   "from_api",
   "_tool_auth_google_api_project",
   "_tool_import_client_secret",
   "options_source",
   "_create_time_utc",
   "_modify_time_utc",
   "last_used_time_utc"]

/-- The structural part of `Options.__eq__` (options.py lines 114-118):
`all(_self[1] == _other[1] for _self, _other in
zip(asdict(self).items(), asdict(other).items())
if _self[0] not in self._comp_excluded_attrs)`. -/
def optionsStructEq (a b : Options) : Bool :=
  ((asdictList a).zip (asdictList b)).all fun p =>
    if comp_excluded_attrs.contains p.1.1 then true else pyValEq p.1.2 p.2.2

/-- Embedding of `Options.__eq__` (options.py lines 104-118).  The
`self is other` shortcut is omitted: identical objects have identical
fields, for which the structural comparison already returns `True`. -/
def optionsEq (a b : Options) : Bool :=
  if pyTruthy a.options_set_name && pyValEq a.options_set_name b.options_set_name then
    true
  else
    optionsStructEq a b

/-- `isinstance(value, list)` conversion done inside `Options.__hash__`:
a list value is replaced by the corresponding tuple before hashing. -/
def listToTuple : PyVal → PyVal
  | .vStrList l => .vStrTuple l
  | v => v

/-- The non-excluded attribute values of an `Options`, in `asdict` order,
with lists converted to tuples, exactly as collected by
`Options.__hash__` (options.py lines 95-101). -/
def includedHashVals (o : Options) : List PyVal :=
  (asdictList o).filterMap fun p =>
    if comp_excluded_attrs.contains p.1 then none else some (listToTuple p.2)

/-- Embedding of `Options.__hash__` (options.py lines 87-102): a named set
hashes on just the name, an unnamed one on the tuple of non-excluded
attribute values. -/
def optionsHash (o : Options) : Nat :=
  if pyTruthy o.options_set_name then
    pyHash o.options_set_name
  else
    combineHash ((includedHashVals o).map pyHash)

/-- `OptionsTimeAttrs` actions accepted by `Options.mark_time`. -/
inductive OptionsTimeAttrs where
  | CREATE
  | MODIFY
  | LAST_USED
  deriving DecidableEq, Repr

/-- Embedding of `Options.mark_time` (options.py lines 120-130), with the
current UTC epoch seconds passed explicitly. -/
def mark_time (action : OptionsTimeAttrs) (t : Nat) (o : Options) : Options :=
  match action with
  | .CREATE => { o with create_time_utc := .vInt t }
  | .MODIFY => { o with modify_time_utc := .vInt t }
  | .LAST_USED => { o with last_used_time_utc := .vInt t }

/-- `_fix_path_strings(Options())` (cli/modifiers.py lines 45-53 applied to a
fresh default `Options`): the default record with the working directory
replaced by `Path(Path(".").resolve())`, i.e. a `Path` rather than a `str`.
This is the value `Metadata.add_option_set` compares incoming sets against. -/
def fixedDefaultOptions : Options :=
  { download_directory := .vPath resolvedCwd }

/-- `optionsStructEq` unfolded to the explicit conjunction over exactly the
sixteen attributes not in `_comp_excluded_attrs`, in `asdict` order. -/
theorem optionsStructEq_expand (a b : Options) :
    optionsStructEq a b =
      (pyValEq a.presentation_id b.presentation_id &&
       (pyValEq a.folder_id b.folder_id &&
        (pyValEq a.custom_presentation b.custom_presentation &&
         (pyValEq a.file_formats b.file_formats &&
          (pyValEq a.run_all b.run_all &&
           (pyValEq a.download_directory b.download_directory &&
            (pyValEq a.mp4_slide_duration_secs b.mp4_slide_duration_secs &&
             (pyValEq a.mp4_total_video_duration b.mp4_total_video_duration &&
              (pyValEq a.fps b.fps &&
               (pyValEq a.jpeg_quality b.jpeg_quality &&
                (pyValEq a.aspect_ratio b.aspect_ratio &&
                 (pyValEq a.dpi b.dpi &&
                  (pyValEq a.screen_width b.screen_width &&
                   (pyValEq a.screen_height b.screen_height &&
                    (pyValEq a.save_to_file b.save_to_file &&
                     (pyValEq a.options_set_name b.options_set_name &&
                      true)))))))))))))))) := rfl

/-- `includedHashVals` unfolded to the explicit sixteen-element list. -/
theorem includedHashVals_expand (o : Options) :
    includedHashVals o =
      [listToTuple o.presentation_id,
       listToTuple o.folder_id,
       listToTuple o.custom_presentation,
       listToTuple o.file_formats,
       listToTuple o.run_all,
       listToTuple o.download_directory,
       listToTuple o.mp4_slide_duration_secs,
       listToTuple o.mp4_total_video_duration,
       listToTuple o.fps,
       listToTuple o.jpeg_quality,
       listToTuple o.aspect_ratio,
       listToTuple o.dpi,
       listToTuple o.screen_width,
       listToTuple o.screen_height,
       listToTuple o.save_to_file,
       listToTuple o.options_set_name] := rfl

/-- Python `==` is reflexive on embedded values. -/
theorem pyValEq_refl (v : PyVal) : pyValEq v v = true := by
  cases v <;> simp [pyValEq]

/-- Only a `str` compares equal to a `str` under Python `==`. -/
theorem pyValEq_vStr_right {v : PyVal} {s : String}
    (h : pyValEq v (.vStr s) = true) : v = .vStr s := by
  cases v <;> simp [pyValEq] at h <;> simp [h]

/-- Python `==` implies equal truthiness on embedded values. -/
theorem pyTruthy_congr {v w : PyVal} (h : pyValEq v w = true) :
    pyTruthy v = pyTruthy w := by
  cases v <;> cases w <;> simp_all [pyValEq, pyTruthy, pyIntOfBool]
  case vBool.vInt b n =>
    cases b <;> simp_all
    omega
  case vInt.vBool n b =>
    cases b <;> simp_all

/-- Python `==` implies equal `hash` on embedded values (the property CPython
guarantees for hashable values, e.g. `hash(True) = hash(1)`). -/
theorem pyHash_congr {v w : PyVal} (h : pyValEq v w = true) :
    pyHash v = pyHash w := by
  cases v <;> cases w <;> simp_all [pyValEq, pyHash]

/-- The list-to-tuple conversion of `Options.__hash__` preserves Python
equality of hashes. -/
theorem pyHash_listToTuple_congr {v w : PyVal} (h : pyValEq v w = true) :
    pyHash (listToTuple v) = pyHash (listToTuple w) := by
  cases v <;> cases w <;> simp_all [pyValEq, listToTuple, pyHash]

/-- Claim C3.  For any two ConfigurationSets: when either one carries a
non-empty name (`options_set_name`, the identity-bearing "label" of the
spec), `Options.__eq__` returns `True` exactly when the names compare equal
under Python `==`, regardless of every other field; when neither is named,
it returns `True` exactly when the sixteen attributes outside
`_comp_excluded_attrs` all compare equal, so excluded fields (timestamps,
bookkeeping flags, source-of-invocation flag) never influence equality and
any included field difference breaks it. -/
theorem claimC3_configuration_set_identity (a b : Options) :
    ((pyTruthy a.options_set_name = true ∨ pyTruthy b.options_set_name = true) →
      (optionsEq a b = true ↔
        pyValEq a.options_set_name b.options_set_name = true))
    ∧ (pyTruthy a.options_set_name = false →
       pyTruthy b.options_set_name = false →
      (optionsEq a b = true ↔
        (pyValEq a.presentation_id b.presentation_id = true ∧
         pyValEq a.folder_id b.folder_id = true ∧
         pyValEq a.custom_presentation b.custom_presentation = true ∧
         pyValEq a.file_formats b.file_formats = true ∧
         pyValEq a.run_all b.run_all = true ∧
         pyValEq a.download_directory b.download_directory = true ∧
         pyValEq a.mp4_slide_duration_secs b.mp4_slide_duration_secs = true ∧
         pyValEq a.mp4_total_video_duration b.mp4_total_video_duration = true ∧
         pyValEq a.fps b.fps = true ∧
         pyValEq a.jpeg_quality b.jpeg_quality = true ∧
         pyValEq a.aspect_ratio b.aspect_ratio = true ∧
         pyValEq a.dpi b.dpi = true ∧
         pyValEq a.screen_width b.screen_width = true ∧
         pyValEq a.screen_height b.screen_height = true ∧
         pyValEq a.save_to_file b.save_to_file = true ∧
         pyValEq a.options_set_name b.options_set_name = true))) := by
  constructor
  · intro hnamed
    cases he : pyValEq a.options_set_name b.options_set_name with
    | true =>
      have ht : pyTruthy a.options_set_name = true := by
        cases hnamed with
        | inl h => exact h
        | inr h => rw [pyTruthy_congr he]; exact h
      simp [optionsEq, ht, he]
    | false =>
      have hs : optionsStructEq a b = false := by
        rw [optionsStructEq_expand]; simp [he]
      simp [optionsEq, he, hs]
  · intro ha hb
    simp only [optionsEq, ha, Bool.false_and, Bool.false_eq_true, if_false]
    rw [optionsStructEq_expand]
    simp [Bool.and_eq_true, and_assoc]

/-- Concrete named ConfigurationSet "work" (variant A, fps 24). -/
def cfgWorkA : Options :=
  { options_set_name := .vStr "work", fps := .vInt 24 }

/-- Concrete named ConfigurationSet "work" (variant B, fps 30, jpeg 85). -/
def cfgWorkB : Options :=
  { options_set_name := .vStr "work", fps := .vInt 30,
    jpeg_quality := .vInt 85 }

/-- Witness for C3: two differently-filled sets both named "work" compare
equal. -/
theorem claimC3_witness : optionsEq cfgWorkA cfgWorkB = true :=
  ((claimC3_configuration_set_identity cfgWorkA cfgWorkB).1
      (Or.inl (by decide))).mpr (by decide)

/-- Claim C10.  `Options.__hash__` is consistent with `Options.__eq__`:
whenever two ConfigurationSets compare equal (named identity or structural
identity), their hashes coincide — named sets hash on the name alone,
unnamed ones on the tuple of non-excluded attribute values with lists
converted to tuples — so membership, removal and deduplication in the
history hash-set are well behaved. -/
theorem claimC10_hash_consistent_with_eq (a b : Options)
    (h : optionsEq a b = true) : optionsHash a = optionsHash b := by
  by_cases hname :
      (pyTruthy a.options_set_name &&
        pyValEq a.options_set_name b.options_set_name) = true
  · rw [Bool.and_eq_true] at hname
    obtain ⟨ht, he⟩ := hname
    have htb : pyTruthy b.options_set_name = true := by
      rw [← pyTruthy_congr he]; exact ht
    simp [optionsHash, ht, htb, pyHash_congr he]
  · rw [optionsEq, if_neg hname] at h
    rw [optionsStructEq_expand] at h
    simp only [Bool.and_eq_true, Bool.and_true] at h
    obtain ⟨e1, e2, e3, e4, e5, e6, e7, e8, e9, e10, e11, e12, e13, e14,
      e15, e16⟩ := h
    have ha : pyTruthy a.options_set_name = false := by
      cases hv : pyTruthy a.options_set_name
      · rfl
      · exact absurd (by simp [hv, e16]) hname
    have hb : pyTruthy b.options_set_name = false := by
      rw [← pyTruthy_congr e16]; exact ha
    simp only [optionsHash, ha, hb, Bool.false_eq_true, if_false]
    rw [includedHashVals_expand, includedHashVals_expand]
    simp only [List.map]
    rw [pyHash_listToTuple_congr e1, pyHash_listToTuple_congr e2,
      pyHash_listToTuple_congr e3, pyHash_listToTuple_congr e4,
      pyHash_listToTuple_congr e5, pyHash_listToTuple_congr e6,
      pyHash_listToTuple_congr e7, pyHash_listToTuple_congr e8,
      pyHash_listToTuple_congr e9, pyHash_listToTuple_congr e10,
      pyHash_listToTuple_congr e11, pyHash_listToTuple_congr e12,
      pyHash_listToTuple_congr e13, pyHash_listToTuple_congr e14,
      pyHash_listToTuple_congr e15, pyHash_listToTuple_congr e16]

/-- Concrete unnamed ConfigurationSet (fps 24, a label — excluded field). -/
def cfgUnnamedA : Options :=
  { fps := .vInt 24, label := .vStr "x" }

/-- Concrete unnamed ConfigurationSet (fps 24, different excluded fields). -/
def cfgUnnamedB : Options :=
  { fps := .vInt 24, last_used_time_utc := .vInt 999 }

/-- Witness for C10: two structurally equal unnamed sets (differing only in
excluded fields) compare equal and hash equal. -/
theorem claimC10_witness :
    optionsEq cfgUnnamedA cfgUnnamedB = true ∧
      optionsHash cfgUnnamedA = optionsHash cfgUnnamedB :=
  ⟨by decide, claimC10_hash_consistent_with_eq cfgUnnamedA cfgUnnamedB (by decide)⟩

/-- Python exceptions raised (or modelled as raised) by the embedded code. -/
inductive PyError where
  | attributeError (name : String)
  | keyError
  | valueError (msg : String)
  | typeError (msg : String)
  | systemExit (msg : String)
  | recursionError
  deriving DecidableEq, Repr

/-- Embedding of Python attribute lookup on an `Options` instance
(a plain dataclass, so exactly the dataclass fields plus the
`_comp_excluded_attrs` list set in `__post_init__` exist; any other name
raises `AttributeError`).  Nothing in the repository ever sets a
`_last_used_time_utc` or `_remove_history_option` attribute. -/
def options_getattr (o : Options) (name : String) : Except PyError PyVal :=
  match name with
  | "presentation_id" => .ok o.presentation_id
  | "folder_id" => .ok o.folder_id
  | "custom_presentation" => .ok o.custom_presentation
  | "file_formats" => .ok o.file_formats
  | "run_all" => .ok o.run_all
  | "download_directory" => .ok o.download_directory
  | "mp4_slide_duration_secs" => .ok o.mp4_slide_duration_secs
  | "mp4_total_video_duration" => .ok o.mp4_total_video_duration
  | "fps" => .ok o.fps
  | "jpeg_quality" => .ok o.jpeg_quality
  | "aspect_ratio" => .ok o.aspect_ratio
  | "dpi" => .ok o.dpi
  | "screen_width" => .ok o.screen_width
  | "screen_height" => .ok o.screen_height
  | "save_to_file" => .ok o.save_to_file
  | "import_client_secret" => .ok o.import_client_secret
  | "label" => .ok o.label
  | "set_label" => .ok o.set_label
  | "options_set_name" => .ok o.options_set_name
  | "options_max_history" => .ok o.options_max_history
  | "remove_history_option" => .ok o.remove_history_option
  | "clear_history" => .ok o.clear_history
  | "clear_force" => .ok o.clear_force
  | "_interactive" => .ok o.interactive
  | "from_api" => .ok o.from_api
  | "_tool_auth_google_api_project" => .ok o.tool_auth_google_api_project
  | "_tool_import_client_secret" => .ok o.tool_import_client_secret
  | "options_source" => .ok o.options_source
  | "_create_time_utc" => .ok o.create_time_utc
  | "_modify_time_utc" => .ok o.modify_time_utc
  | "last_used_time_utc" => .ok o.last_used_time_utc
  | "_comp_excluded_attrs" => .ok (.vStrList comp_excluded_attrs)
  | other => .error (.attributeError other)

/-- Embedding of the `Metadata` store (meta.py): the part of its state the
modelled operations touch.  `google_client_secret` / `google_client_token`
are opaque payloads never read by the history operations and are omitted;
`write()` (pickle + Fernet encryption to disk) is external I/O and is a
no-op on this state. -/
structure MetaStore where
  options_history : List Options := []
  deriving DecidableEq, Repr

/-- `Metadata.options_history_max_unnamed_sets` (meta.py line 37). -/
def options_history_max_unnamed_sets : Nat := 10

/-- Python `options_set in history` for a `set[Options]`: some stored
element compares equal (CPython compares the table entry to the probe). -/
def histContains (h : List Options) (o : Options) : Bool :=
  h.any fun e => optionsEq e o

/-- Python `history.remove(options_set)` on the underlying set, given the
element is present: drops the entries equal to the probe (a Python set
holds at most one). -/
def histRemove (h : List Options) (o : Options) : List Options :=
  h.filter fun e => !optionsEq e o

/-- Python `history.add(options_set)`: keeps the existing equal element if
one is present, otherwise inserts. -/
def histAdd (h : List Options) (o : Options) : List Options :=
  if histContains h o then h else h ++ [o]

/-- `label.strip().replace(" ", "-")` from `Metadata.set_options_name`. -/
def normalizeLabel (s : String) : String := (s.trim).replace " " "-"

/-- `set.remove` with Python semantics: `KeyError` when no equal element is
stored, otherwise the store without it. -/
def removeOrKeyError (store : MetaStore) (o : Options) :
    Except PyError MetaStore :=
  if histContains store.options_history o then
    .ok { store with options_history := histRemove store.options_history o }
  else
    .error .keyError

/-- Embedding of `Metadata.set_options_name` (meta.py lines 177-190).
The interactive selection `OptionsHistory()()` and the naming dialog
`options_name_dialog` are external collaborators, passed in as `prompt`
(``none`` models no selection) and `nameDialog`; `t` is the wall clock for
`mark_time(MODIFY)`.  In-place mutation of the chosen set is modelled by
threading the updated record. -/
def set_options_name (prompt : List Options → Option Options)
    (nameDialog : Options → String) (t : Nat)
    (store : MetaStore) (opts : Options) :
    MetaStore × Except PyError Options :=
  if pyTruthy opts.set_label then
    let step1 : MetaStore × Except PyError Options :=
      if isPyBool opts.set_label then
        match prompt store.options_history with
        | none => (store, .error .keyError)
        | some chosen =>
          match removeOrKeyError store chosen with
          | .error e => (store, .error e)
          | .ok store1 =>
            (store1,
             .ok { chosen with options_set_name := .vStr (nameDialog chosen) })
      else (store, .ok opts)
    match step1 with
    | (store1, .error e) => (store1, .error e)
    | (store1, .ok cur) =>
      let step2 : MetaStore × Except PyError Options :=
        match cur.set_label with
        | .vStr s =>
          match removeOrKeyError store1 cur with
          | .error e => (store1, .error e)
          | .ok store2 =>
            (store2,
             .ok { cur with options_set_name := .vStr (normalizeLabel s) })
        | _ => (store1, .ok cur)
      match step2 with
      | (store2, .error e) => (store2, .error e)
      | (store2, .ok cur2) =>
        (store2, .ok (mark_time .MODIFY t { cur2 with set_label := .vNone }))
  else
    (store, .ok opts)

/-- The per-element key extraction performed by
`sorted(unnamed_sets, key=lambda options_set: options_set._last_used_time_utc, ...)`
in `Metadata.enforce_unnamed_option_sets_limit` (meta.py line 207): CPython
evaluates the key for each element in order, so the first failing attribute
lookup raises. -/
def sortKeysOf : List Options → Except PyError (List PyVal)
  | [] => .ok []
  | o :: rest =>
    match options_getattr o "_last_used_time_utc" with
    | .error e => .error e
    | .ok v =>
      match sortKeysOf rest with
      | .error e => .error e
      | .ok vs => .ok (v :: vs)

/-- Embedding of `Metadata.enforce_unnamed_option_sets_limit` together with
`collate_named_and_unnamed_option_sets` (meta.py lines 192-209).  Because
the sort key reads the attribute `_last_used_time_utc`, which no `Options`
instance has (the field is `last_used_time_utc`), the success branch is
reachable only with no unnamed entries, where the descending sort and the
`[:max]` truncation are vacuous (they are kept as an order-preserving
truncation). -/
def enforce_unnamed_option_sets_limit (store : MetaStore) :
    MetaStore × Option PyError :=
  let named := store.options_history.filter fun o => pyTruthy o.options_set_name
  let unnamed :=
    store.options_history.filter fun o => !pyTruthy o.options_set_name
  match sortKeysOf unnamed with
  | .error e => (store, some e)
  | .ok _ =>
    ({ store with
        options_history :=
          named ++ unnamed.take options_history_max_unnamed_sets }, none)

/-- Embedding of `Metadata.add_option_set` (meta.py lines 160-175): skip the
insertion when the incoming set equals `_fix_path_strings(Options())` and no
`set_label` command is present; otherwise run `set_options_name`, stamp
`LAST_USED`, remove any existing equal entry, insert, then enforce the
retention limit, persist, and raise `SystemExit` when `set_label` was a
bool.  The second component is the exception the call raises, if any; the
first is the (already mutated) store. -/
def add_option_set (prompt : List Options → Option Options)
    (nameDialog : Options → String) (t : Nat)
    (store : MetaStore) (opts : Options) : MetaStore × Option PyError :=
  let terminate := isPyBool opts.set_label
  let afterIf : MetaStore × Option PyError :=
    if !(optionsEq opts fixedDefaultOptions) || terminate then
      match set_options_name prompt nameDialog t store opts with
      | (store1, .error e) => (store1, some e)
      | (store1, .ok opts1) =>
        let opts2 := mark_time .LAST_USED t opts1
        let h := store1.options_history
        let h1 := if histContains h opts2 then histRemove h opts2 else h
        ({ store1 with options_history := histAdd h1 opts2 }, none)
    else (store, none)
  match afterIf with
  | (store1, some e) => (store1, some e)
  | (store1, none) =>
    match enforce_unnamed_option_sets_limit store1 with
    | (store2, some e) => (store2, some e)
    | (store2, none) =>
      if terminate then (store2, some (.systemExit "")) else (store2, none)

/-- Embedding of `Metadata.remove_options_set` (meta.py lines 211-230).  The
method first reads `options_set._remove_history_option`; the lookup goes
through `options_getattr`, and the remaining logic (label-hash lookup with
last match winning, `ValueError` when nothing matches, interactive
selection otherwise, delete, persist, `SystemExit`) is embedded after it. -/
def remove_options_set (prompt : List Options → Option Options)
    (store : MetaStore) (opts : Options) : MetaStore × Option PyError :=
  match options_getattr opts "_remove_history_option" with
  | .error e => (store, some e)
  | .ok flag =>
    if pyTruthy flag then
      let trash : Except PyError (Option Options) :=
        if pyTruthy opts.label then
          match store.options_history.foldl
              (fun acc e =>
                if pyHash opts.label == optionsHash e then some e else acc)
              none with
          | some found => .ok (some found)
          | none => .error (.valueError "No Option set with label found")
        else .ok (prompt store.options_history)
      match trash with
      | .error e => (store, some e)
      | .ok (some tr) =>
        ({ store with options_history := histRemove store.options_history tr },
         some (.systemExit "options set removed."))
      | .ok none => (store, some (.systemExit "options set removed."))
    else (store, some (.systemExit "options set removed."))

/-- `mark_time LAST_USED` only touches the last-used timestamp. -/
theorem mark_time_last_used_name (t : Nat) (o : Options) :
    (mark_time .LAST_USED t o).options_set_name = o.options_set_name := rfl

/-- `mark_time LAST_USED` leaves `set_label` unchanged. -/
theorem mark_time_last_used_set_label (t : Nat) (o : Options) :
    (mark_time .LAST_USED t o).set_label = o.set_label := rfl

/-- Comparing against a set named `nm` (a non-empty name) is exactly a
comparison of names: `Options.__eq__` returns the name comparison both via
its named shortcut and via the structural fallback (where the name is one
of the compared attributes). -/
theorem optionsEq_named_right {o : Options} {nm : String}
    (hnm : o.options_set_name = .vStr nm) (hne : nm ≠ "") (e : Options) :
    optionsEq e o = pyValEq e.options_set_name (.vStr nm) := by
  cases hc : pyValEq e.options_set_name (.vStr nm) with
  | true =>
    have he := pyValEq_vStr_right hc
    simp [optionsEq, he, hnm, pyTruthy, pyValEq, hne]
  | false =>
    have hs : optionsStructEq e o = false := by
      rw [optionsStructEq_expand, hnm]
      simp [hc]
    simp [optionsEq, hnm, hc, hs]

/-- The remove-then-add sequence of `Metadata.add_option_set`, applied with
a set named `nm`, replaces every entry under that name and appends the new
set. -/
theorem replace_equal_entry {h : List Options} {o : Options} {nm : String}
    (hnm : o.options_set_name = .vStr nm) (hne : nm ≠ "") :
    histAdd (if histContains h o then histRemove h o else h) o =
      (h.filter fun e => !pyValEq e.options_set_name (.vStr nm)) ++ [o] := by
  have key : ∀ e, optionsEq e o = pyValEq e.options_set_name (.vStr nm) :=
    fun e => optionsEq_named_right hnm hne e
  have hrem : histRemove h o =
      h.filter fun e => !pyValEq e.options_set_name (.vStr nm) := by
    unfold histRemove
    exact List.filter_congr fun e _ => by rw [key e]
  cases hc : histContains h o with
  | true =>
    have hnc : histContains
        (h.filter fun e => !pyValEq e.options_set_name (.vStr nm)) o = false := by
      unfold histContains
      rw [List.any_eq_false]
      intro e he
      rw [key e]
      have := (List.mem_filter.mp he).2
      simp at this
      simp [this]
    simp only [if_true, hrem]
    simp [histAdd, hnc]
  | false =>
    have hall : ∀ e ∈ h, (!pyValEq e.options_set_name (.vStr nm)) = true := by
      intro e he
      have hne2 : optionsEq e o = false := by
        have := List.any_eq_false.mp (by simpa [histContains] using hc) e he
        simpa using this
      rw [key e] at hne2
      simp [hne2]
    rw [if_neg Bool.false_ne_true, List.filter_eq_self.mpr hall]
    simp [histAdd, hc]

/-- One `Metadata.add_option_set` call with a named, non-default set and a
history holding only named entries: the call raises nothing, replaces the
entries under that name and appends the freshly stamped set. -/
theorem add_named_step (prompt : List Options → Option Options)
    (nameDialog : Options → String) (t : Nat) (s : MetaStore) (cfg : Options)
    (nm : String)
    (hs : ∀ o ∈ s.options_history, pyTruthy o.options_set_name = true)
    (hnm : cfg.options_set_name = .vStr nm) (hne : nm ≠ "")
    (hl : cfg.set_label = .vNone) :
    add_option_set prompt nameDialog t s cfg =
      ({ options_history :=
          (s.options_history.filter
            fun e => !pyValEq e.options_set_name (.vStr nm)) ++
            [mark_time .LAST_USED t cfg] }, none) := by
  have hterm : isPyBool cfg.set_label = false := by rw [hl]; rfl
  have hslab : pyTruthy cfg.set_label = false := by rw [hl]; rfl
  have hdefname :
      pyValEq cfg.options_set_name fixedDefaultOptions.options_set_name =
        false := by
    rw [hnm]; rfl
  have hdef : optionsEq cfg fixedDefaultOptions = false := by
    simp [optionsEq, optionsStructEq_expand, hdefname]
  have hson : set_options_name prompt nameDialog t s cfg = (s, .ok cfg) := by
    simp [set_options_name, hslab]
  have hmark : (mark_time .LAST_USED t cfg).options_set_name = .vStr nm := by
    rw [mark_time_last_used_name]; exact hnm
  have hrepl := @replace_equal_entry s.options_history
    (mark_time .LAST_USED t cfg) nm hmark hne
  have hFnamed : ∀ e ∈ (s.options_history.filter
      fun e => !pyValEq e.options_set_name (.vStr nm)),
      pyTruthy e.options_set_name = true :=
    fun e he => hs e (List.mem_filter.mp he).1
  have hAnamed : pyTruthy (mark_time .LAST_USED t cfg).options_set_name =
      true := by
    rw [hmark]
    simpa [pyTruthy] using hne
  have hunnamed :
      ((s.options_history.filter
          fun e => !pyValEq e.options_set_name (.vStr nm)) ++
        [mark_time .LAST_USED t cfg]).filter
        (fun o => !pyTruthy o.options_set_name) = [] := by
    rw [List.filter_append]
    have h1 : (s.options_history.filter
        fun e => !pyValEq e.options_set_name (.vStr nm)).filter
        (fun o => !pyTruthy o.options_set_name) = [] :=
      List.filter_eq_nil_iff.mpr fun e he => by simp [hFnamed e he]
    have h2 : ([mark_time .LAST_USED t cfg].filter
        (fun o => !pyTruthy o.options_set_name)) = [] := by
      simp [hAnamed]
    rw [h1, h2]
    rfl
  have hnamedself :
      ((s.options_history.filter
          fun e => !pyValEq e.options_set_name (.vStr nm)) ++
        [mark_time .LAST_USED t cfg]).filter
        (fun o => pyTruthy o.options_set_name) =
      (s.options_history.filter
          fun e => !pyValEq e.options_set_name (.vStr nm)) ++
        [mark_time .LAST_USED t cfg] := by
    apply List.filter_eq_self.mpr
    intro e he
    rcases List.mem_append.mp he with h | h
    · exact hFnamed e h
    · rw [List.mem_singleton.mp h]; exact hAnamed
  have henf : enforce_unnamed_option_sets_limit
      { options_history :=
          (s.options_history.filter
            fun e => !pyValEq e.options_set_name (.vStr nm)) ++
            [mark_time .LAST_USED t cfg] } =
      ({ options_history :=
          (s.options_history.filter
            fun e => !pyValEq e.options_set_name (.vStr nm)) ++
            [mark_time .LAST_USED t cfg] }, none) := by
    simp [enforce_unnamed_option_sets_limit, hunnamed, hnamedself, sortKeysOf]
  simp [add_option_set, hterm, hdef, hson, hrepl, henf]

/-- Claim C6.  Adding a ConfigurationSet named "work" and then a different
one under the same name: each `add_option_set` stamps `LAST_USED`, removes
the existing equal entry and inserts, so the final history holds exactly
one entry under the name "work" — the second set (with its fresh
`LAST_USED` stamp), which still compares equal to the second set as
submitted: last-write-wins under label identity.  The store is assumed to
hold only named entries (the retention-limit pass crashes otherwise, see
the C2 result). -/
theorem claimC6_label_last_write_wins
    (prompt : List Options → Option Options) (nameDialog : Options → String)
    (s : MetaStore) (t1 t2 : Nat) (cfgA cfgB : Options)
    (hs : ∀ o ∈ s.options_history, pyTruthy o.options_set_name = true)
    (hA : cfgA.options_set_name = .vStr "work")
    (hB : cfgB.options_set_name = .vStr "work")
    (hAl : cfgA.set_label = .vNone) (hBl : cfgB.set_label = .vNone) :
    (add_option_set prompt nameDialog t1 s cfgA).2 = none ∧
    (add_option_set prompt nameDialog t2
        (add_option_set prompt nameDialog t1 s cfgA).1 cfgB).2 = none ∧
    ((add_option_set prompt nameDialog t2
        (add_option_set prompt nameDialog t1 s cfgA).1 cfgB).1.options_history.filter
      fun o => pyValEq o.options_set_name (.vStr "work")) =
      [mark_time .LAST_USED t2 cfgB] ∧
    optionsEq (mark_time .LAST_USED t2 cfgB) cfgB = true := by
  have hne : "work" ≠ "" := by decide
  have h1 := add_named_step prompt nameDialog t1 s cfgA "work" hs hA hne hAl
  have hs1 : ∀ o ∈ ((s.options_history.filter
      fun e => !pyValEq e.options_set_name (.vStr "work")) ++
      [mark_time .LAST_USED t1 cfgA]), pyTruthy o.options_set_name = true := by
    intro o ho
    rcases List.mem_append.mp ho with h | h
    · exact hs o (List.mem_filter.mp h).1
    · rw [List.mem_singleton.mp h, mark_time_last_used_name, hA]
      decide
  have h2 := add_named_step prompt nameDialog t2
    ⟨(s.options_history.filter
        fun e => !pyValEq e.options_set_name (.vStr "work")) ++
      [mark_time .LAST_USED t1 cfgA]⟩ cfgB "work" hs1 hB hne hBl
  have hBname : (mark_time .LAST_USED t2 cfgB).options_set_name =
      .vStr "work" := by
    rw [mark_time_last_used_name]; exact hB
  refine ⟨by rw [h1], ?_, ?_, ?_⟩
  · rw [h1]
    rw [h2]
  · rw [h1]
    rw [h2]
    have hFA : ((s.options_history.filter
        fun e => !pyValEq e.options_set_name (.vStr "work")) ++
        [mark_time .LAST_USED t1 cfgA]).filter
        (fun e => !pyValEq e.options_set_name (.vStr "work")) =
        s.options_history.filter
          fun e => !pyValEq e.options_set_name (.vStr "work") := by
      rw [List.filter_append]
      have hF2 : (s.options_history.filter
          fun e => !pyValEq e.options_set_name (.vStr "work")).filter
          (fun e => !pyValEq e.options_set_name (.vStr "work")) =
          s.options_history.filter
            fun e => !pyValEq e.options_set_name (.vStr "work") :=
        List.filter_eq_self.mpr fun e he => (List.mem_filter.mp he).2
      have hA2 : ([mark_time .LAST_USED t1 cfgA].filter
          (fun e => !pyValEq e.options_set_name (.vStr "work"))) = [] := by
        simp [List.filter, mark_time_last_used_name, hA, pyValEq]
      rw [hF2, hA2, List.append_nil]
    show (((s.options_history.filter
        fun e => !pyValEq e.options_set_name (.vStr "work")) ++
        [mark_time .LAST_USED t1 cfgA]).filter
          (fun e => !pyValEq e.options_set_name (.vStr "work")) ++
        [mark_time .LAST_USED t2 cfgB]).filter
          (fun o => pyValEq o.options_set_name (.vStr "work")) =
      [mark_time .LAST_USED t2 cfgB]
    rw [hFA, List.filter_append]
    have hzero : (s.options_history.filter
        fun e => !pyValEq e.options_set_name (.vStr "work")).filter
        (fun o => pyValEq o.options_set_name (.vStr "work")) = [] :=
      List.filter_eq_nil_iff.mpr fun e he => by
        have h := (List.mem_filter.mp he).2
        simp at h
        simp [h]
    have hone : ([mark_time .LAST_USED t2 cfgB].filter
        (fun o => pyValEq o.options_set_name (.vStr "work"))) =
        [mark_time .LAST_USED t2 cfgB] := by
      simp [List.filter, hBname, pyValEq]
    rw [hzero, hone, List.nil_append]
  · simp [optionsEq, hBname, hB, pyTruthy, pyValEq]

/-- Witness for C6: on the empty store, adding `cfgWorkA` then `cfgWorkB`
(both named "work") leaves exactly the freshly stamped `cfgWorkB` under
that name. -/
theorem claimC6_witness :
    ((add_option_set (fun _ => none) (fun _ => "") 2
        (add_option_set (fun _ => none) (fun _ => "") 1 ⟨[]⟩ cfgWorkA).1
        cfgWorkB).1.options_history.filter
      fun o => pyValEq o.options_set_name (.vStr "work")) =
      [mark_time .LAST_USED 2 cfgWorkB] :=
  (claimC6_label_last_write_wins (fun _ => none) (fun _ => "") ⟨[]⟩ 1 2
      cfgWorkA cfgWorkB (by simp) rfl rfl rfl rfl).2.2.1

/-- Removing an element leaves nothing equal to it in a history set. -/
theorem histContains_histRemove_self (h : List Options) (o : Options) :
    histContains (histRemove h o) o = false := by
  unfold histContains histRemove
  rw [List.any_eq_false]
  intro e he
  have h2 := (List.mem_filter.mp he).2
  simp at h2
  simp [h2]

/-- After the remove-then-add sequence of `add_option_set`, the inserted
set is in the history. -/
theorem histAdd_after_replace_mem (h : List Options) (o : Options) :
    o ∈ histAdd (if histContains h o then histRemove h o else h) o := by
  cases hc : histContains h o with
  | true => simp [histAdd, histContains_histRemove_self]
  | false => simp [histAdd, hc]

/-- `Metadata.enforce_unnamed_option_sets_limit` raises
`AttributeError("_last_used_time_utc")` whenever the history holds any
unnamed entry: the sort key reads an attribute `Options` does not have. -/
theorem enforce_errors_of_unnamed_mem {store : MetaStore} {o : Options}
    (hmem : o ∈ store.options_history)
    (hun : pyTruthy o.options_set_name = false) :
    enforce_unnamed_option_sets_limit store =
      (store, some (.attributeError "_last_used_time_utc")) := by
  have hne : store.options_history.filter
      (fun o => !pyTruthy o.options_set_name) ≠ [] := by
    intro hnil
    have h2 := List.filter_eq_nil_iff.mp hnil o hmem
    simp [hun] at h2
  obtain ⟨a, l, hl2⟩ := List.exists_cons_of_ne_nil hne
  simp only [enforce_unnamed_option_sets_limit]
  rw [hl2]
  rfl

/-- Claim C2 (a code bug).  `Metadata.add_option_set` with any unnamed,
non-default set (no `set_label` command) does not enforce the unnamed
retention bound: after inserting the set it calls
`enforce_unnamed_option_sets_limit`, whose sort key accesses the attribute
`_last_used_time_utc` — the `Options` field is `last_used_time_utc` — so
the call raises `AttributeError` instead of retaining the
most-recently-used unnamed entries.  The claimed scenario (twelve distinct
unnamed adds with the limit at ten) therefore crashes on its very first
add. -/
theorem claimC2_retention_limit_crashes
    (prompt : List Options → Option Options) (nameDialog : Options → String)
    (t : Nat) (s : MetaStore) (opts : Options)
    (hun : pyTruthy opts.options_set_name = false)
    (hl : opts.set_label = .vNone)
    (hd : optionsEq opts fixedDefaultOptions = false) :
    (add_option_set prompt nameDialog t s opts).2 =
      some (.attributeError "_last_used_time_utc") := by
  have hterm : isPyBool opts.set_label = false := by rw [hl]; rfl
  have hslab : pyTruthy opts.set_label = false := by rw [hl]; rfl
  have hson : set_options_name prompt nameDialog t s opts = (s, .ok opts) := by
    simp [set_options_name, hslab]
  have hmun : pyTruthy (mark_time .LAST_USED t opts).options_set_name =
      false := by
    rw [mark_time_last_used_name]; exact hun
  have hmem := histAdd_after_replace_mem s.options_history
    (mark_time .LAST_USED t opts)
  have henf := @enforce_errors_of_unnamed_mem
    ⟨histAdd
      (if histContains s.options_history (mark_time .LAST_USED t opts) then
        histRemove s.options_history (mark_time .LAST_USED t opts)
      else s.options_history) (mark_time .LAST_USED t opts)⟩
    (mark_time .LAST_USED t opts) hmem hmun
  simp [add_option_set, hterm, hson, hd, henf]

/-- Witness for C2: the first unnamed non-default add on the empty store
raises `AttributeError("_last_used_time_utc")`. -/
theorem claimC2_witness :
    pyTruthy cfgUnnamedA.options_set_name = false ∧
    optionsEq cfgUnnamedA fixedDefaultOptions = false ∧
    (add_option_set (fun _ => none) (fun _ => "") 5 ⟨[]⟩ cfgUnnamedA).2 =
      some (.attributeError "_last_used_time_utc") :=
  ⟨by decide, by decide,
    claimC2_retention_limit_crashes (fun _ => none) (fun _ => "") 5 ⟨[]⟩
      cfgUnnamedA (by decide) rfl (by decide)⟩

/-- Claim C8 (a code bug).  `Metadata.remove_options_set` reads
`options_set._remove_history_option` as its first step; the `Options`
dataclass field is `remove_history_option` and nothing ever sets the
underscored attribute, so every remove request — with or without a label,
matching entry present or not — raises
`AttributeError("_remove_history_option")` before any lookup or deletion,
rather than deleting the matching entry or failing with the specific
"No Option set with label found" error. -/
theorem claimC8_remove_always_raises_attribute_error
    (prompt : List Options → Option Options) (s : MetaStore) (opts : Options) :
    remove_options_set prompt s opts =
      (s, some (.attributeError "_remove_history_option")) := rfl

/-- The value held in a lazy slot managed through `DataPartial` /
`convert_partial_to_bytes` (utils/utils.py lines 29-47).  `wrapped r` is the
`_DataPartial` namedtuple (it has `_fields`) holding
`functools.partial(fmt_fnc, **kwargs)`, whose invocation returns `r`;
`plain v` is any non-namedtuple value — the results stored back into slots
in this repository (`File` dataclass instances, bytes, generators, `None`)
have no `_fields` attribute. -/
inductive PartialSlot (α : Type) where
  | wrapped (result : α) : PartialSlot α
  | plain (v : α) : PartialSlot α
  deriving DecidableEq, Repr

/-- Embedding of `DataPartial(fmt_fnc)(**kwargs)`: builds the namedtuple
around the bound callable; the second component counts invocations of
`fmt_fnc` performed while constructing — zero. -/
def dataPartialMake {α : Type} (r : α) : PartialSlot α × Nat :=
  (.wrapped r, 0)

/-- Embedding of `convert_partial_to_bytes(obj, key)`: when the slot still
has `_fields` (is the namedtuple), invoke the bound callable once and
replace the slot with the result; otherwise return the stored value.
Returns (new slot value, returned value, number of invocations made). -/
def convert_partial_to_bytes {α : Type} : PartialSlot α → PartialSlot α × α × Nat
  | .wrapped r => (.plain r, r, 1)
  | .plain v => (.plain v, v, 0)

/-- A sequence of `convert_partial_to_bytes` calls on the same slot,
accumulating the total number of invocations of the wrapped callable. -/
def convertSeq {α : Type} : Nat → PartialSlot α → PartialSlot α × Nat
  | 0, s => (s, 0)
  | n + 1, s =>
    let r := convert_partial_to_bytes s
    let rest := convertSeq n r.1
    (rest.1, r.2.2 + rest.2)

/-- Once resolved, a slot is never re-invoked, however often it is read. -/
theorem convertSeq_plain {α : Type} (r : α) (m : Nat) :
    convertSeq m (.plain r) = (.plain r, 0) := by
  induction m with
  | zero => rfl
  | succ n ih => simp [convertSeq, convert_partial_to_bytes, ih]

/-- Claim C5.  Constructing a deferred value `DataPartial(f)(**kwargs)` does
not invoke `f`; across any sequence of `convert_partial_to_bytes` calls on
the same slot the callable is invoked exactly once — the first call
replaces the slot with the computed result and returns it, and every later
call returns that memoized value with no further invocation. -/
theorem claimC5_lazy_fetch_memoization {α : Type} (r : α) (n : Nat) :
    (dataPartialMake r).2 = 0 ∧
    convert_partial_to_bytes (dataPartialMake r).1 =
      (.plain r, r, 1) ∧
    convert_partial_to_bytes (PartialSlot.plain r) = (.plain r, r, 0) ∧
    convertSeq (n + 1) (dataPartialMake r).1 = (.plain r, 1) := by
  refine ⟨rfl, rfl, rfl, ?_⟩
  simp [convertSeq, dataPartialMake, convert_partial_to_bytes,
    convertSeq_plain]

/-- The settings document written by `Metadata.generate_yaml_dict`
(meta.py lines 79-91): three byte-string values under the keys
`client_id`, `project_id` and `project_meta`.  Bytes are lists of byte
values. -/
structure SettingsDoc where
  client_id : List Nat
  project_id : List Nat
  project_meta : List Nat
  deriving DecidableEq, Repr

/-- The settings files on disk, by path.  PyYAML's `safe_dump`/`safe_load`
round-trip `str`-keyed mappings with `bytes` values exactly (bytes are
serialised with the `!!binary` tag), so a stored file is modelled by the
document it deserialises to. -/
def SettingsFS : Type := String → Option SettingsDoc

/-- Embedding of `Metadata.write_settings` (meta.py lines 101-107): create
the file if needed, truncate, and write `yaml.safe_dump(settings)`. -/
def write_settings (fs : SettingsFS) (path : String)
    (settings : SettingsDoc) : SettingsFS :=
  fun p => if p = path then some settings else fs p

/-- Embedding of `Metadata.get_client_id` (meta.py lines 109-113):
`yaml.safe_load` the file and read `settings["client_id"]`.  A missing
file (Python `FileNotFoundError`) is `none`. -/
def get_client_id (fs : SettingsFS) (path : String) : Option (List Nat) :=
  (fs path).map SettingsDoc.client_id

/-- Embedding of `Metadata.get_project_id` (meta.py lines 115-119). -/
def get_project_id (fs : SettingsFS) (path : String) : Option (List Nat) :=
  (fs path).map SettingsDoc.project_id

/-- Embedding of `Metadata.get_project_meta` (meta.py lines 121-126): the
method guards on `meta_path.exists()` and implicitly returns `None` for a
missing file. -/
def get_project_meta (fs : SettingsFS) (path : String) : Option (List Nat) :=
  (fs path).map SettingsDoc.project_meta

/-- Embedding of `Metadata.generate_yaml_dict` (meta.py lines 79-91),
parameterised by the external library primitives it calls:
`b64urlsafe` models `base64.urlsafe_b64encode`, `kdfDerive` models
`generate_derived_key` (PBKDF2-HMAC-SHA256, 100000 iterations, salt =
project id, urlsafe-base64-encoded) — both deterministic functions of
their inputs; `cidRaw` is the 1028-character random client id
(ascii-encoded) and `pid` the 16 random project-id bytes. -/
def generate_yaml_dict (b64urlsafe : List Nat → List Nat)
    (kdfDerive : List Nat → List Nat → List Nat)
    (cidRaw pid : List Nat) : SettingsDoc :=
  { client_id := b64urlsafe cidRaw
    project_id := pid
    project_meta := kdfDerive (b64urlsafe cidRaw) pid }

/-- Claim C7.  For every generated settings document (base64-encoded random
client id, random project-id bytes, PBKDF2-derived key), `write_settings`
followed by `get_client_id`, `get_project_id` and `get_project_meta` on the
same path recovers exactly the values written, whatever was on disk
before. -/
theorem claimC7_settings_round_trip (fs : SettingsFS) (path : String)
    (b64urlsafe : List Nat → List Nat)
    (kdfDerive : List Nat → List Nat → List Nat) (cidRaw pid : List Nat) :
    get_client_id
        (write_settings fs path (generate_yaml_dict b64urlsafe kdfDerive cidRaw pid))
        path = some (b64urlsafe cidRaw) ∧
    get_project_id
        (write_settings fs path (generate_yaml_dict b64urlsafe kdfDerive cidRaw pid))
        path = some pid ∧
    get_project_meta
        (write_settings fs path (generate_yaml_dict b64urlsafe kdfDerive cidRaw pid))
        path = some (kdfDerive (b64urlsafe cidRaw) pid) := by
  refine ⟨?_, ?_, ?_⟩ <;>
    simp [get_client_id, get_project_id, get_project_meta, write_settings,
      generate_yaml_dict]

/-- Python truthiness of an optional list argument. -/
def truthyOptList (l : Option (List String)) : Bool :=
  match l with
  | none => false
  | some l => !l.isEmpty

/-- The keyword arguments of `Folder.__new__` (drive.py lines 30-38).
`presentations` stands for the optional list of pre-built `Presentation`
objects (only its presence matters to the modelled logic). -/
structure FolderArgs where
  folder_id : Option String := none
  folder_name : Option String := none
  parent : Option String := none
  presentation_ids : Option (List String) := none
  presentations : Option (List String) := none
  folder_ids : Option (List String) := none

/-- The class-level identity cache of `Folder`: `_root_instance`,
`_instances` (a dict keyed by the instance id — `"batch"` or a folder id or
`None`; modelled as an association list where the head entry shadows), and
an allocation counter standing for `super().__new__` — each allocation is a
distinct in-memory object, identified by its number. -/
structure FolderCacheState where
  root_instance : Option Nat := none
  instances : List (Option String × Nat) := []
  next_obj : Nat := 0
  deriving DecidableEq, Repr

/-- Embedding of `Folder.__new__` (drive.py lines 30-52).  With no id and no
id-lists, the distinguished root instance is returned (allocated once).
Otherwise `instance_id` is `"batch"` when presentation-id or folder-id
lists are truthy, else `folder_id`; the membership test is
`folder_id not in cls._instances` — the lookup key differs from the store
key `instance_id`, exactly as in the source — and the method returns
`cls._instances[instance_id]` (a `KeyError` if that key is absent).  The
field assignments performed on a fresh instance do not affect identity and
are not tracked. -/
def folderNew (a : FolderArgs) (s : FolderCacheState) :
    FolderCacheState × Except PyError Nat :=
  if a.folder_id.isNone && a.presentation_ids.isNone && a.folder_ids.isNone then
    match s.root_instance with
    | some oid => (s, .ok oid)
    | none =>
      ({ s with root_instance := some s.next_obj, next_obj := s.next_obj + 1 },
       .ok s.next_obj)
  else
    let instance_id : Option String :=
      if truthyOptList a.presentation_ids || truthyOptList a.folder_ids then
        some "batch"
      else a.folder_id
    let s1 :=
      if (s.instances.lookup a.folder_id).isNone then
        { s with instances := (instance_id, s.next_obj) :: s.instances,
                 next_obj := s.next_obj + 1 }
      else s
    match s1.instances.lookup instance_id with
    | some oid => (s1, .ok oid)
    | none => (s1, .error .keyError)

/-- A batch construction: `Folder(presentation_ids=["p1"])`. -/
def batchFolderArgs : FolderArgs := { presentation_ids := some ["p1"] }

/-- Claim C1 (a code bug).  The per-key uniqueness of in-memory nodes fails
for the Folder "batch" key: `Folder.__new__` tests membership with
`folder_id` (here `None`) but stores under `instance_id` (`"batch"`), so a
second batch construction allocates a fresh instance (object 1) instead of
returning the first (object 0).  For a plain folder id the two keys
coincide and the second construction does return the identical instance —
the membership test on `folder_id` is the slip. -/
theorem claimC1_node_identity_broken_for_batch :
    (folderNew batchFolderArgs {}).2 = .ok 0 ∧
    (folderNew batchFolderArgs (folderNew batchFolderArgs {}).1).2 = .ok 1 ∧
    (folderNew { folder_id := some "F1" } {}).2 = .ok 0 ∧
    (folderNew { folder_id := some "F1" }
        (folderNew { folder_id := some "F1" } {}).1).2 = .ok 0 :=
  ⟨rfl, rfl, rfl, rfl⟩

/-- A Drive file resource as returned by the listing calls (`id`, `name`). -/
structure DriveFile where
  id : String
  name : String
  deriving DecidableEq, Repr

/-- Outcome of one remote `files().list(...).execute()` call. -/
inductive RemoteCallResult where
  | okFiles (files : List DriveFile)
  | httpError
  deriving Repr

/-- The remote Drive contents consulted by the traversal: per folder id, the
result of listing its presentations and of listing its sub-folders. -/
structure DriveWorld where
  presentationsOf : String → RemoteCallResult
  foldersOf : String → RemoteCallResult

/-- Embedding of `GoogleClient.get_presentations_from_drive_folder`
(google_client.py lines 84-107): falsy folder id falls through (implicit
`None`); on success `results.get("files", [])`; an `HttpError` is caught,
printed, and `None` is returned. -/
def get_presentations_from_drive_folder (w : DriveWorld)
    (folder_id : Option String) : Option (List DriveFile) :=
  match folder_id with
  | none => none
  | some fid =>
    if fid == "" then none
    else
      match w.presentationsOf fid with
      | .okFiles files => some files
      | .httpError => none

/-- Embedding of `GoogleClient.get_folders_from_drive_folder`
(google_client.py lines 109-129), identical shape. -/
def get_folders_from_drive_folder (w : DriveWorld)
    (folder_id : Option String) : Option (List DriveFile) :=
  match folder_id with
  | none => none
  | some fid =>
    if fid == "" then none
    else
      match w.foldersOf fid with
      | .okFiles files => some files
      | .httpError => none

/-- Resolution of the deferred listing built by
`Folder.get_presentations_partial` (drive.py lines 114-125): the generator
expression evaluates its outer iterable `presentations_list` eagerly, so a
`None` result raises `TypeError` at that point; otherwise one
`Presentation(presentation_id=..., parent=folder_id)` reference per listed
file. -/
def resolve_presentations_listing (w : DriveWorld) (folder_id : Option String) :
    Except PyError (List (String × Option String)) :=
  match get_presentations_from_drive_folder w folder_id with
  | none => .error (.typeError "NoneType object is not iterable")
  | some files => .ok (files.map fun f => (f.id, folder_id))

/-- Resolution of the deferred listing built by `Folder.get_folders_partial`
(drive.py lines 103-112), with the same `TypeError` on a `None` result. -/
def resolve_folders_listing (w : DriveWorld) (folder_id : Option String) :
    Except PyError (List DriveFile) :=
  match get_folders_from_drive_folder w folder_id with
  | none => .error (.typeError "NoneType object is not iterable")
  | some files => .ok files

/-- Embedding of `Folder.recursive_save` / `recursive_to_file` (drive.py
lines 213-252) over a worklist of folder ids: resolve the folder's
presentations (collecting the presentation ids that get materialised),
resolve its sub-folder listing, recurse depth-first into the children, then
continue with the remaining siblings.  An uncaught exception anywhere
propagates and aborts the whole walk, as in the source.  The fuel bounds
the recursion depth only (Python recurses unboundedly); with fuel at least
the tree depth the behaviour coincides. -/
def recursive_save_walk (w : DriveWorld) :
    Nat → List (Option String) → Except PyError (List String)
  | _, [] => .ok []
  | 0, _ :: _ => .error .recursionError
  | fuel + 1, fid :: rest =>
    match resolve_presentations_listing w fid with
    | .error e => .error e
    | .ok ps =>
      match resolve_folders_listing w fid with
      | .error e => .error e
      | .ok subs =>
        match recursive_save_walk w fuel (subs.map fun c => some c.id) with
        | .error e => .error e
        | .ok childIds =>
          match recursive_save_walk w (fuel + 1) rest with
          | .error e => .error e
          | .ok restIds => .ok (ps.map Prod.fst ++ childIds ++ restIds)
termination_by fuel l => (fuel, l.length)

/-- A drive with root `R` holding presentation `p1` and sub-folders `A`
(whose presentation listing fails with an `HttpError`) and `B` (holding
`p2`). -/
def c4World : DriveWorld where
  presentationsOf fid :=
    if fid == "R" then .okFiles [⟨"p1", "Pone"⟩]
    else if fid == "A" then .httpError
    else if fid == "B" then .okFiles [⟨"p2", "Ptwo"⟩]
    else .okFiles []
  foldersOf fid :=
    if fid == "R" then .okFiles [⟨"A", "suba"⟩, ⟨"B", "subb"⟩]
    else .okFiles []

/-- The same drive with `A`'s presentation listing succeeding (empty). -/
def c4WorldFixed : DriveWorld where
  presentationsOf fid :=
    if fid == "R" then .okFiles [⟨"p1", "Pone"⟩]
    else if fid == "A" then .okFiles []
    else if fid == "B" then .okFiles [⟨"p2", "Ptwo"⟩]
    else .okFiles []
  foldersOf fid :=
    if fid == "R" then .okFiles [⟨"A", "suba"⟩, ⟨"B", "subb"⟩]
    else .okFiles []

/-- Claim C4 (a code bug).  The `HttpError` of a failing "list children"
call is caught — `get_presentations_from_drive_folder` returns `None`
rather than raising — but `None` is not an empty collection: resolving the
folder's presentations generator then raises `TypeError`, which nothing
catches, so the recursive walk aborts instead of continuing: with `A`'s
listing failing, the walk errors and `p2` in sibling `B` is never yielded,
whereas the same walk with `A` resolving to an empty listing yields
`p1` and `p2`. -/
theorem claimC4_listing_failure_aborts_walk :
    get_presentations_from_drive_folder c4World (some "A") = none ∧
    recursive_save_walk c4World 3 [some "R"] =
      .error (.typeError "NoneType object is not iterable") ∧
    recursive_save_walk c4WorldFixed 3 [some "R"] = .ok ["p1", "p2"] := by
  refine ⟨rfl, ?_, ?_⟩ <;>
    simp [recursive_save_walk, resolve_presentations_listing,
      resolve_folders_listing, get_presentations_from_drive_folder,
      get_folders_from_drive_folder, c4World, c4WorldFixed]

/-- Python truthiness of an optional string argument. -/
def truthyOptStr (s : Option String) : Bool :=
  match s with
  | none => false
  | some s => s != ""

/-- Python truthiness of the optional `slide_ids` list of
(presentation id, slide id) pairs. -/
def truthyOptPairs (l : Option (List (String × String))) : Bool :=
  match l with
  | none => false
  | some l => !l.isEmpty

/-- The class-level identity cache of `Presentation` together with a count
of the remote calls issued during construction: `name_calls` counts
`config.GOOGLE.get_presentation_name` invocations (the name-resolution
network call), `structure_calls` the additional
`get_google_slides_presentation` JSON fetch made by `populate_slides`. -/
structure PresCacheState where
  instances : List ((Option String × Option String) × Nat) := []
  next_obj : Nat := 0
  name_calls : Nat := 0
  structure_calls : Nat := 0
  deriving DecidableEq, Repr

/-- Embedding of the `__new__` installed on `Presentation` by
`dataclass_unique_instance_cache(id_keys=["presentation_id", "parent"])`
(utils/utils.py lines 100-111): the identity key is the tuple of those two
keyword arguments; a missing key allocates and stores, and the cached
instance is returned. -/
def presNew (pid parent : Option String) (s : PresCacheState) :
    PresCacheState × Nat :=
  match s.instances.lookup (pid, parent) with
  | some oid => (s, oid)
  | none =>
    ({ s with instances := ((pid, parent), s.next_obj) :: s.instances,
              next_obj := s.next_obj + 1 }, s.next_obj)

/-- Embedding of one full `Presentation(presentation_id=..., parent=...)`
construction: `__new__` consults the cache, after which Python always runs
the dataclass `__init__` on the object it returned — cached or fresh —
resetting every field and invoking `__post_init__` (presentation.py lines
322-332).  In the non-batch branch with a truthy presentation id and falsy
`slide_ids`, `__post_init__` calls `get_presentation_name` (one
name-resolution remote call, counted in `name_calls`); `populate_slides`
(lines 334-362) then fetches the presentation JSON once more when
`slide_ids is None` and the node is not batch (counted in
`structure_calls`; for a batch node the JSON partial resolves to `None`
and the following `.file_data` access raises `AttributeError`); with
`slide_ids` supplied the slides are built locally.  The mp4 rebinding only
constructs a new partial. -/
def presentationConstruct (pid parent : Option String)
    (slide_ids : Option (List (String × String))) (is_batch : Bool)
    (s : PresCacheState) : PresCacheState × Nat × Option PyError :=
  let r := presNew pid parent s
  let s1 := r.1
  let oid := r.2
  let s2 :=
    if !is_batch && truthyOptStr pid && !truthyOptPairs slide_ids then
      { s1 with name_calls := s1.name_calls + 1 }
    else s1
  if slide_ids.isNone then
    if !is_batch then
      ({ s2 with structure_calls := s2.structure_calls + 1 }, oid, none)
    else
      (s2, oid, some (.attributeError "file_data"))
  else
    (s2, oid, none)

/-- Counterexample for C9: requesting `Presentation("P1", parent="F1")`
twice in a fresh process returns the identical in-memory node (object 0
both times) but the second construction does issue a second
name-resolution network call — `name_calls` is 2 after it, not 1 — because
the dataclass initializer re-runs on the cached instance. -/
theorem claimC9_counterexample :
    (presentationConstruct (some "P1") (some "F1") none false
        (presentationConstruct (some "P1") (some "F1") none false {}).1).2.1 =
      (presentationConstruct (some "P1") (some "F1") none false {}).2.1 ∧
    (presentationConstruct (some "P1") (some "F1") none false {}).1.name_calls =
      1 ∧
    (presentationConstruct (some "P1") (some "F1") none false
        (presentationConstruct (some "P1") (some "F1") none false {}).1).1.name_calls =
      2 :=
  ⟨rfl, rfl, rfl⟩

/-- Claim C9 as amended.  Requesting `Presentation(pid, parent)` a second
time in the same process returns the identical in-memory node as the first
request, but each construction — the second included — issues a
name-resolution network call (`get_presentation_name`), since the
dataclass `__init__`/`__post_init__` re-run on the cached instance. -/
theorem claimC9_identity_holds_but_name_refetched
    (s : PresCacheState) (pid parent : Option String)
    (hp : truthyOptStr pid = true) :
    (presentationConstruct pid parent none false
        (presentationConstruct pid parent none false s).1).2.1 =
      (presentationConstruct pid parent none false s).2.1 ∧
    (presentationConstruct pid parent none false s).2.2 = none ∧
    (presentationConstruct pid parent none false
        (presentationConstruct pid parent none false s).1).2.2 = none ∧
    (presentationConstruct pid parent none false s).1.name_calls =
      s.name_calls + 1 ∧
    (presentationConstruct pid parent none false
        (presentationConstruct pid parent none false s).1).1.name_calls =
      s.name_calls + 2 := by
  cases hl : s.instances.lookup (pid, parent) with
  | some oid =>
    simp [presentationConstruct, presNew, hl, hp, truthyOptPairs]
  | none =>
    simp [presentationConstruct, presNew, hl, hp, truthyOptPairs,
      List.lookup]

/-- Witness for the amended C9 at `("P1", "F1")` on a fresh process. -/
theorem claimC9_witness :
    truthyOptStr (some "P1") = true ∧
    (presentationConstruct (some "P1") (some "F1") none false
        (presentationConstruct (some "P1") (some "F1") none false {}).1).1.name_calls =
      2 :=
  ⟨by decide,
    (claimC9_identity_holds_but_name_refetched {} (some "P1") (some "F1")
        (by decide)).2.2.2.2⟩
